import Mathlib

/-!
Shallow embedding of the Gemini-backend chat service core: the quota
ledger (GeminiService.checkUsageQuota / incrementUsage), the prompt
composition (generateResponse / generateChatResponse), the HTTP ai-chat
route, the socket handlers (send_message, ai_chat via handleAIResponse),
the leave-room route, and the Redis-backed fixed-window rate limiter.
Definitions are translated from the TypeScript source; theorems settle
the frozen specification claims.
-/

/-- Prisma enum MessageType. -/
inductive MessageType where
  | TEXT | IMAGE | FILE | SYSTEM
deriving DecidableEq

/-- Prisma enum MessageSender. -/
inductive MessageSender where
  | USER | AI | SYSTEM
deriving DecidableEq

/-- Prisma enum ChatRoomRole. -/
inductive ChatRoomRole where
  | OWNER | ADMIN | MODERATOR | MEMBER
deriving DecidableEq

/-- The quota-relevant fields of the prisma Subscription row. -/
structure Subscription where
  monthlyMessageLimit : Int
  messagesUsed : Int
deriving DecidableEq

/-- Result shape of GeminiService.checkUsageQuota. -/
structure QuotaResult where
  canUse : Bool
  remaining : Int
deriving DecidableEq

/-- GeminiService.checkUsageQuota: the argument is the outcome of the
prisma read of the user plus subscription (error for a thrown read,
none when the user or subscription row is absent). -/
def checkUsageQuota (dbResult : Except Unit (Option Subscription)) : QuotaResult :=
  match dbResult with
  | Except.error _ => { canUse := false, remaining := 0 }
  | Except.ok none => { canUse := false, remaining := 0 }
  | Except.ok (some s) =>
      let remaining := s.monthlyMessageLimit - s.messagesUsed
      { canUse := decide (0 < remaining), remaining := max 0 remaining }

/-- The subscription update performed by GeminiService.incrementUsage:
messagesUsed is incremented by one. -/
def incrementSub (s : Subscription) : Subscription :=
  { s with messagesUsed := s.messagesUsed + 1 }

/-- Return shape of GeminiService.generateResponse. -/
structure ChatResponse where
  content : String
  promptTokens : Nat
  completionTokens : Nat
  model : String
deriving DecidableEq

/-- Chat-turn roles accepted by generateChatResponse. -/
inductive Role where
  | user | assistant
deriving DecidableEq

/-- One element of the conversation-context array. -/
structure Turn where
  role : Role
  content : String
deriving DecidableEq

/-- Token estimate used by generateResponse: Math.ceil(length / 4). -/
def tokenEstimate (s : String) : Nat := (s.length + 3) / 4

/-- Default model of GeminiService. -/
def defaultModel : String := "gemini-pro"

/-- The system prompt passed by both the HTTP route and the socket
handler when no conversation context is supplied. -/
def personaPrompt : String :=
  "You are a helpful AI assistant in a chat room. Be concise and friendly."

/-- Full-prompt assembly inside generateResponse: a system prompt, when
present, is prefixed to the user prompt. -/
def fullPromptOf (systemPrompt : Option String) (prompt : String) : String :=
  match systemPrompt with
  | some sp => sp ++ "\n\nUser: " ++ prompt
  | none => prompt

/-- GeminiService.generateResponse. The external Gemini call is the
provider parameter, mapping the full prompt to either a failure or the
generated text; token counts are estimated from string lengths. -/
def generateResponse (prompt : String) (model : String) (systemPrompt : Option String)
    (provider : String → Except Unit String) : Except Unit ChatResponse :=
  let fullPrompt := fullPromptOf systemPrompt prompt
  match provider fullPrompt with
  | Except.error _ => Except.error ()
  | Except.ok text =>
      Except.ok { content := text, promptTokens := tokenEstimate fullPrompt,
                  completionTokens := tokenEstimate text, model := model }

/-- Role label used when joining the conversation history. -/
def roleLabel (r : Role) : String :=
  match r with
  | Role.user => "User"
  | Role.assistant => "Assistant"

/-- Whether a turn has the user role (the filter inside
generateChatResponse). -/
def isUserTurn (t : Turn) : Bool :=
  match t.role with
  | Role.user => true
  | Role.assistant => false

/-- The joined conversation history built by generateChatResponse. -/
def conversationHistory (messages : List Turn) : String :=
  String.intercalate "\n" (messages.map (fun m => roleLabel m.role ++ ": " ++ m.content))

/-- The last user-role message extracted by generateChatResponse
(empty string when there is none). -/
def lastUserMessage (messages : List Turn) : String :=
  match (messages.filter isUserTurn).getLast? with
  | some t => t.content
  | none => ""

/-- The prompt string built by generateChatResponse from the message
list: the joined history followed by a further final User line holding
the last user message. -/
def chatPrompt (messages : List Turn) : String :=
  conversationHistory messages ++ "\nUser: " ++ lastUserMessage messages

/-- GeminiService.generateChatResponse: converts the chat history to a
single prompt and delegates to generateResponse. -/
def generateChatResponse (messages : List Turn) (model : String)
    (systemPrompt : Option String) (provider : String → Except Unit String) :
    Except Unit ChatResponse :=
  generateResponse (chatPrompt messages) model systemPrompt provider

/-- The fields of a prisma Message row that the claims mention. -/
structure Message where
  content : String
  type : MessageType
  sender : MessageSender
  userId : Option Nat
  aiModel : Option String
  promptTokens : Option Nat
  completionTokens : Option Nat
deriving DecidableEq

/-- The assistant Message row created on a successful generation, as in
both the HTTP route and handleAIResponse. -/
def mkAiMessage (resp : ChatResponse) : Message :=
  { content := resp.content, type := MessageType.TEXT, sender := MessageSender.AI,
    userId := none, aiModel := some resp.model,
    promptTokens := some resp.promptTokens, completionTokens := some resp.completionTokens }

/-- The user Message row created by the socket send_message handler. -/
def mkUserMessage (content : String) (type : MessageType) (userId : Nat) : Message :=
  { content := content, type := type, sender := MessageSender.USER,
    userId := some userId, aiModel := none,
    promptTokens := none, completionTokens := none }

/-- The database state relevant to one authenticated identity and one
chat room: whether a ChatRoomMember row exists, the allowAI flag of the
ChatRoom row, the Subscription row of the identity (if any), the
lifetime User.messageCount counter, and the persisted Message rows of
the room in creation order. -/
structure CoreState where
  isMember : Bool
  allowAI : Bool
  sub : Option Subscription
  messageCount : Int
  messages : List Message
deriving DecidableEq

/-- An error produced via createApiError: a message and an HTTP status. -/
structure ApiError where
  message : String
  status : Nat
deriving DecidableEq

/-- The state change shared by the HTTP route and handleAIResponse on a
successful generation: the assistant message is persisted, then
incrementUsage bumps Subscription.messagesUsed and User.messageCount. -/
def applyAiSuccess (st : CoreState) (resp : ChatResponse) : CoreState :=
  { st with messages := st.messages ++ [mkAiMessage resp],
            sub := st.sub.map incrementSub,
            messageCount := st.messageCount + 1 }

/-- The generation branch of the HTTP ai-chat route: a context supplied
as an array takes the chat-history path with the new user message
appended; otherwise the single-message path with the persona system
prompt is taken. -/
def httpGenerate (context : Option (List Turn)) (message : String) (model : String)
    (provider : String → Except Unit String) : Except Unit ChatResponse :=
  match context with
  | some ctx =>
      generateChatResponse (ctx ++ [{ role := Role.user, content := message }]) model none provider
  | none => generateResponse message model (some personaPrompt) provider

/-- Success payload of the HTTP ai-chat route: the persisted assistant
message and the usage block of the JSON response. -/
structure AiChatOk where
  message : Message
  remaining : Int
  promptTokens : Nat
  completionTokens : Nat
deriving DecidableEq

/-- The POST /:chatRoomId/ai-chat route: missing message is a 400;
membership is checked first (404 access denied), then the allowAI flag
(403), then the quota (429); on provider failure a 500 is thrown and the
state is untouched; on success the assistant message is persisted, usage
is incremented, and the response reports the pre-increment remaining
quota minus one. -/
def aiChatRoute (st : CoreState) (messageBody : Option String)
    (context : Option (List Turn)) (modelBody : Option String)
    (provider : String → Except Unit String) :
    Except ApiError AiChatOk × CoreState :=
  match messageBody with
  | none => (Except.error { message := "Message content is required", status := 400 }, st)
  | some message =>
    if st.isMember = false then
      (Except.error { message := "Chat room not found or access denied", status := 404 }, st)
    else if st.allowAI = false then
      (Except.error { message := "AI is not enabled for this chat room", status := 403 }, st)
    else
      let quota := checkUsageQuota (Except.ok st.sub)
      if quota.canUse = false then
        (Except.error { message := "AI usage quota exceeded. Please upgrade your subscription.",
                        status := 429 }, st)
      else
        match httpGenerate context message (modelBody.getD defaultModel) provider with
        | Except.error _ =>
            (Except.error { message := "Failed to generate AI response", status := 500 }, st)
        | Except.ok resp =>
            (Except.ok { message := mkAiMessage resp, remaining := quota.remaining - 1,
                         promptTokens := resp.promptTokens,
                         completionTokens := resp.completionTokens },
             applyAiSuccess st resp)

/-- Events a socket handler emits (error, ai_error, new_message). -/
inductive SocketEvent where
  | errorEv (message : String)
  | aiError (message : String)
  | newMessage (m : Message)
deriving DecidableEq

/-- The generation branch of the socket handleAIResponse helper: the
chat-history path is taken only when the context is present and
non-empty. -/
def socketGenerate (context : Option (List Turn)) (userMessage : String)
    (provider : String → Except Unit String) : Except Unit ChatResponse :=
  match context with
  | some (t :: ts) =>
      generateChatResponse ((t :: ts) ++ [{ role := Role.user, content := userMessage }])
        defaultModel none provider
  | _ => generateResponse userMessage defaultModel (some personaPrompt) provider

/-- The socket handleAIResponse helper, reached from the ai_chat event
and from the at-ai branch of send_message: it checks only the usage
quota (no membership and no allowAI check), then generates, persists the
assistant message, increments usage and broadcasts; failures emit
ai_error and leave the state untouched. -/
def handleAIResponse (st : CoreState) (userMessage : String)
    (context : Option (List Turn)) (provider : String → Except Unit String) :
    List SocketEvent × CoreState :=
  let quota := checkUsageQuota (Except.ok st.sub)
  if quota.canUse = false then
    ([SocketEvent.aiError "AI usage quota exceeded. Please upgrade your subscription."], st)
  else
    match socketGenerate context userMessage provider with
    | Except.error _ => ([SocketEvent.aiError "Failed to generate AI response"], st)
    | Except.ok resp =>
        ([SocketEvent.newMessage (mkAiMessage resp)], applyAiSuccess st resp)

/-- Character-list matching helper: pat begins the given list. -/
def leadsWith : List Char → List Char → Bool
  | [], _ => true
  | _ :: _, [] => false
  | a :: as, b :: bs => a == b && leadsWith as bs

/-- Character-list matching helper: pat occurs somewhere in the list. -/
def hasSubChars (pat : List Char) : List Char → Bool
  | [] => leadsWith pat []
  | c :: rest => leadsWith pat (c :: rest) || hasSubChars pat rest

/-- The at-ai trigger test of the send_message handler:
content.toLowerCase().includes matching the at-ai tag, modelled over the
character sequence of the content lowercased character by character. -/
def containsAi (content : String) : Bool :=
  hasSubChars "@ai".data (content.data.map Char.toLower)

/-- The socket send_message handler: membership is required; the user
message is persisted and broadcast; then, when the room allows AI and
the content contains the at-ai tag case-insensitively, handleAIResponse
runs on the same content with no context. -/
def sendMessageSocket (st : CoreState) (userId : Nat) (content : String)
    (type : MessageType) (provider : String → Except Unit String) :
    List SocketEvent × CoreState :=
  if st.isMember = false then
    ([SocketEvent.errorEv "Not authorized to send messages to this room"], st)
  else
    let userMsg := mkUserMessage content type userId
    let st1 : CoreState := { st with messages := st.messages ++ [userMsg] }
    if st1.allowAI && containsAi content then
      let run := handleAIResponse st1 content none provider
      (SocketEvent.newMessage userMsg :: run.1, run.2)
    else
      ([SocketEvent.newMessage userMsg], st1)

/-- A rate-limiter window as stored in Redis for one key: the counter
value and the absolute expiry time in milliseconds. -/
structure RateWindow where
  count : Nat
  expiry : Nat
deriving DecidableEq

/-- The window length the Redis store installs: redis.expire(key, 900),
fifteen minutes. -/
def windowSeconds : Nat := 900

/-- One incr on the Redis store (createRedisStore.incr): an absent or
expired key restarts at one and receives a fresh expiry; otherwise the
counter is incremented and the expiry left untouched. -/
def storeHit (w : Option RateWindow) (now : Nat) : Nat × RateWindow :=
  match w with
  | none => (1, { count := 1, expiry := now + windowSeconds * 1000 })
  | some win =>
      if win.expiry ≤ now then (1, { count := 1, expiry := now + windowSeconds * 1000 })
      else (win.count + 1, { count := win.count + 1, expiry := win.expiry })

/-- One request through the rateLimiter middleware for one key: the
store counts the hit, and the request is allowed while the total stays
within maxHits. -/
def rlHit (w : Option RateWindow) (now maxHits : Nat) : Bool × RateWindow :=
  let hit := storeHit w now
  (decide (hit.1 ≤ maxHits), hit.2)

/-- A sequence of requests for one key at the given times, threading the
stored window and collecting the allow or reject verdicts. -/
def runHits (maxHits : Nat) : Option RateWindow → List Nat → List Bool × Option RateWindow
  | w, [] => ([], w)
  | w, t :: ts =>
      let step := rlHit w t maxHits
      let rest := runHits maxHits (some step.2) ts
      (step.1 :: rest.1, rest.2)

/-- The keyGenerator of the rateLimiter middleware: any request with an
authorization header is keyed by its network address plus an auth
suffix; a request without one is keyed by the address alone. The
identity inside the token is never decoded into the key. -/
def keyGenerator (authHeader : Option String) (ip : String) : String :=
  match authHeader with
  | some _ => "rate_limit:" ++ ip ++ ":auth"
  | none => "rate_limit:" ++ ip

/-- The ChatRoomMember table restricted to its unique (userId,
chatRoomId) key: each pair maps to at most one role. -/
def Memberships : Type := Nat × Nat → Option ChatRoomRole

/-- The POST /:chatRoomId/leave route: a missing membership is a 404; an
OWNER membership is rejected with a 400 and nothing is deleted; any
other membership row is deleted. -/
def leaveRoom (ms : Memberships) (userId roomId : Nat) :
    Except ApiError Unit × Memberships :=
  match ms (userId, roomId) with
  | none => (Except.error { message := "Not a member of this chat room", status := 404 }, ms)
  | some role =>
    if role = ChatRoomRole.OWNER then
      (Except.error { message := "Room owner cannot leave. Please transfer ownership first.",
                      status := 400 }, ms)
    else
      (Except.ok (), fun p => if p = (userId, roomId) then none else ms p)

/-- A sequence of leave operations, each by some caller on some room. -/
def leaveSeq (ms : Memberships) : List (Nat × Nat) → Memberships
  | [] => ms
  | (u, r) :: ops => leaveSeq (leaveRoom ms u r).2 ops

/-- The quota test one invocation performs before generating: the canUse
field of checkUsageQuota over the live subscription row. -/
def quotaCanUse (s : Subscription) : Bool :=
  (checkUsageQuota (Except.ok (some s))).canUse

/-- Two concurrent invocations by the same identity, interleaved so that
both quota reads (checkUsageQuota, one database round trip) run before
either incrementUsage write (a second, separate round trip) — the
schedule the check-then-increment structure of the code permits. Each
invocation succeeds when its own check passed, and then performs its
increment. -/
def raceTwoInvocations (s0 : Subscription) : (Bool × Bool) × Subscription :=
  let aOk := quotaCanUse s0
  let bOk := quotaCanUse s0
  let s1 := if aOk then incrementSub s0 else s0
  let s2 := if bOk then incrementSub s1 else s1
  ((aOk, bOk), s2)

/-- Projection of a route outcome to the reported remaining quota. -/
def resRemaining (res : Except ApiError AiChatOk) : Except ApiError Int :=
  match res with
  | Except.error e => Except.error e
  | Except.ok ok => Except.ok ok.remaining

/-- N sequential HTTP ai-chat invocations threading the state, recording
for each call the reported remaining quota or the error. -/
def runAiSeq (provider : String → Except Unit String) (st : CoreState) :
    Nat → List (Except ApiError Int) × CoreState
  | 0 => ([], st)
  | n + 1 =>
      let step := aiChatRoute st (some "hi") none none provider
      let rest := runAiSeq provider step.2 n
      (resRemaining step.1 :: rest.1, rest.2)

/-- A member state of an assistant-enabled room whose subscription has
the given limit and consumed count. -/
def mkQuotaState (limit used : Int) : CoreState :=
  { isMember := true, allowAI := true, sub := some { monthlyMessageLimit := limit, messagesUsed := used },
    messageCount := 0, messages := [] }

/-- The ChatResponse produced by generateResponse under a provider that
answers every prompt, with the token estimates of the code. -/
def genOk (prompt model : String) (systemPrompt : Option String)
    (f : String → String) : ChatResponse :=
  { content := f (fullPromptOf systemPrompt prompt),
    promptTokens := tokenEstimate (fullPromptOf systemPrompt prompt),
    completionTokens := tokenEstimate (f (fullPromptOf systemPrompt prompt)),
    model := model }

/-- Modelled from the spec: the context-path prompt as section 4.2 words
it — the ordered prior turns with the new user message appended exactly
once as the final turn. Stated only to be compared with the chatPrompt
the code builds. -/
def specPromptWithContext (ctx : List Turn) (userMessage : String) : String :=
  conversationHistory (ctx ++ [{ role := Role.user, content := userMessage }])

/-! Helper lemmas shared by the claim theorems. -/

lemma generateResponse_ok (prompt model : String) (sp : Option String)
    (f : String → String) :
    generateResponse prompt model sp (fun p => Except.ok (f p)) =
      Except.ok (genOk prompt model sp f) := rfl

lemma checkUsageQuota_some (l u : Int) :
    checkUsageQuota (Except.ok (some { monthlyMessageLimit := l, messagesUsed := u })) =
      { canUse := decide (0 < l - u), remaining := max 0 (l - u) } := rfl

lemma aiChatRoute_success_none (st : CoreState) (l u : Int) (msg : String)
    (mb : Option String) (f : String → String)
    (hm : st.isMember = true) (ha : st.allowAI = true)
    (hs : st.sub = some { monthlyMessageLimit := l, messagesUsed := u })
    (hq : u < l) :
    aiChatRoute st (some msg) none mb (fun p => Except.ok (f p)) =
      (Except.ok { message := mkAiMessage (genOk msg (mb.getD defaultModel) (some personaPrompt) f),
                   remaining := l - u - 1,
                   promptTokens := tokenEstimate (fullPromptOf (some personaPrompt) msg),
                   completionTokens := tokenEstimate (f (fullPromptOf (some personaPrompt) msg)) },
       { st with messages := st.messages ++ [mkAiMessage (genOk msg (mb.getD defaultModel) (some personaPrompt) f)],
                 sub := some { monthlyMessageLimit := l, messagesUsed := u + 1 },
                 messageCount := st.messageCount + 1 }) := by
  have h0 : (0 : Int) < l - u := by omega
  simp only [aiChatRoute, hm, ha, hs, checkUsageQuota_some, httpGenerate, generateResponse_ok,
    applyAiSuccess, incrementSub, Option.map_some]
  simp only [decide_eq_true h0, Bool.true_eq_false, if_false, genOk, Option.map_some']
  have hmax : max (0 : Int) (l - u) = l - u := max_eq_right (by omega)
  rw [hmax]
  rfl

lemma aiChatRoute_quota_blocked (st : CoreState) (msg : String)
    (ctx : Option (List Turn)) (mb : Option String)
    (provider : String → Except Unit String)
    (hm : st.isMember = true) (ha : st.allowAI = true)
    (hq : (checkUsageQuota (Except.ok st.sub)).canUse = false) :
    aiChatRoute st (some msg) ctx mb provider =
      (Except.error { message := "AI usage quota exceeded. Please upgrade your subscription.",
                      status := 429 }, st) := by
  simp only [aiChatRoute, hm, ha, hq, Bool.true_eq_false, if_false, if_true]

lemma runAiSeq_spec (f : String → String) (l : Int) :
    ∀ (n : Nat) (st : CoreState) (u : Int),
      st.isMember = true → st.allowAI = true →
      st.sub = some { monthlyMessageLimit := l, messagesUsed := u } →
      u + n ≤ l →
      (runAiSeq (fun p => Except.ok (f p)) st n).1 =
        (List.range n).map (fun k : Nat => Except.ok (l - u - (k : Int) - 1)) ∧
      (runAiSeq (fun p => Except.ok (f p)) st n).2.isMember = true ∧
      (runAiSeq (fun p => Except.ok (f p)) st n).2.allowAI = true ∧
      (runAiSeq (fun p => Except.ok (f p)) st n).2.sub =
        some { monthlyMessageLimit := l, messagesUsed := u + n } := by
  intro n
  induction n with
  | zero =>
      intro st u hm ha hs _
      refine ⟨rfl, hm, ha, ?_⟩
      simpa using hs
  | succ n ih =>
      intro st u hm ha hs hb
      have hq : u < l := by omega
      have hstep := aiChatRoute_success_none st l u "hi" none f hm ha hs hq
      have hrest := ih { st with
          messages := st.messages ++ [mkAiMessage (genOk "hi" (Option.getD none defaultModel) (some personaPrompt) f)],
          sub := some { monthlyMessageLimit := l, messagesUsed := u + 1 },
          messageCount := st.messageCount + 1 } (u + 1) hm ha rfl (by push_cast at hb; omega)
      simp only [runAiSeq, hstep, resRemaining]
      refine ⟨?_, hrest.2.1, hrest.2.2.1, ?_⟩
      · rw [hrest.1, List.range_succ_eq_map, List.map_cons, List.map_map]
        congr 1
        · norm_num
        · apply List.map_congr_left
          intro k _
          simp only [Function.comp_apply]
          congr 1
          push_cast
          ring
      · rw [hrest.2.2.2]
        congr 1
        push_cast
        ring_nf

lemma rlHit_inside (m c e now : Nat) (h : now < e) :
    rlHit (some { count := c, expiry := e }) now m =
      (decide (c + 1 ≤ m), { count := c + 1, expiry := e }) := by
  simp only [rlHit, storeHit]
  rw [if_neg (by omega)]

lemma runHits_append (m : Nat) (l1 : List Nat) :
    ∀ (w : Option RateWindow) (l2 : List Nat),
      runHits m w (l1 ++ l2) =
        ((runHits m w l1).1 ++ (runHits m (runHits m w l1).2 l2).1,
         (runHits m (runHits m w l1).2 l2).2) := by
  induction l1 with
  | nil => intro w l2; simp [runHits]
  | cons t ts ih =>
      intro w l2
      simp only [List.cons_append, runHits, List.append_eq, ih]

lemma runHits_allowed (m e : Nat) :
    ∀ (ts : List Nat) (c : Nat),
      (∀ t ∈ ts, t < e) → c + ts.length ≤ m →
      runHits m (some { count := c, expiry := e }) ts =
        (List.replicate ts.length true, some { count := c + ts.length, expiry := e }) := by
  intro ts
  induction ts with
  | nil => intro c _ _; simp [runHits]
  | cons t ts ih =>
      intro c hin hc
      have ht : t < e := hin t (List.mem_cons_self t ts)
      simp only [List.length_cons] at hc
      have hc1 : c + 1 ≤ m := by omega
      have hrest := ih (c + 1) (fun x hx => hin x (List.mem_cons_of_mem t hx)) (by omega)
      simp only [runHits, rlHit_inside m c e t ht, hrest, List.length_cons,
        List.replicate_succ, decide_eq_true hc1, Prod.mk.injEq, Option.some.injEq,
        RateWindow.mk.injEq]
      exact ⟨trivial, by omega, trivial⟩

lemma leaveRoom_preserves_owner (ms : Memberships) (u r a b : Nat)
    (h : ms (u, r) = some ChatRoomRole.OWNER) :
    (leaveRoom ms a b).2 (u, r) = some ChatRoomRole.OWNER := by
  unfold leaveRoom
  cases hab : ms (a, b) with
  | none => simpa using h
  | some role =>
      by_cases hrole : role = ChatRoomRole.OWNER
      · simp [hrole, h]
      · simp only [hrole, if_false]
        by_cases hp : ((u, r) : Nat × Nat) = (a, b)
        · rw [hp] at h
          rw [h] at hab
          cases hab
          exact absurd rfl hrole
        · simp [hp, h]

lemma leaveSeq_preserves_owner (u r : Nat) :
    ∀ (ops : List (Nat × Nat)) (ms : Memberships),
      ms (u, r) = some ChatRoomRole.OWNER →
      leaveSeq ms ops (u, r) = some ChatRoomRole.OWNER := by
  intro ops
  induction ops with
  | nil => intro ms h; simpa [leaveSeq] using h
  | cons op ops ih =>
      intro ms h
      cases op with
      | mk a b =>
          exact ih _ (leaveRoom_preserves_owner ms u r a b h)

lemma lastUserMessage_append (ctx : List Turn) (msg : String) :
    lastUserMessage (ctx ++ [{ role := Role.user, content := msg }]) = msg := by
  unfold lastUserMessage
  rw [List.filter_append]
  have hone : List.filter isUserTurn [{ role := Role.user, content := msg }] =
      [{ role := Role.user, content := msg }] := by
    simp [isUserTurn]
  rw [hone, List.getLast?_append_cons]
  rfl

/-! Claim theorems. -/

/-- C1 counterexample input: a caller with no membership in a room whose
assistant-enabled flag is off, but with allowance remaining. -/
def c1State : CoreState :=
  { isMember := false, allowAI := false,
    sub := some { monthlyMessageLimit := 50, messagesUsed := 0 },
    messageCount := 0, messages := [] }

/-- C1 counterexample: the live-session ai_chat event (handleAIResponse)
invoked by a caller with no membership in a room with the assistant
disabled does not fail with Forbidden or AssistantDisabled — it
generates, persists an assistant message and consumes quota, so the two
transports do not enforce the same authorization rules. -/
theorem C1_counterexample :
    c1State.isMember = false ∧ c1State.allowAI = false ∧
    (handleAIResponse c1State "hello" none (fun _ => Except.ok "ok")).1 =
      [SocketEvent.newMessage (mkAiMessage (genOk "hello" defaultModel (some personaPrompt)
        (fun _ => "ok")))] ∧
    (handleAIResponse c1State "hello" none (fun _ => Except.ok "ok")).2.messages.length = 1 ∧
    (handleAIResponse c1State "hello" none (fun _ => Except.ok "ok")).2.sub =
      some { monthlyMessageLimit := 50, messagesUsed := 1 } := by
  exact ⟨rfl, rfl, rfl, rfl, rfl⟩

/-- C1 amended: only the HTTP ai-chat route checks the preconditions in
order — membership (rejected with a 404 access-denied error), then the
assistant-enabled flag (403), then the quota (429). The live-session
ai_chat handler enforces only the quota rule: when no allowance remains
it emits the quota ai_error, but when allowance remains it proceeds to
persist an assistant message and consume quota with no membership or
assistant-enabled check, so the two transports do not enforce the same
authorization rules. -/
theorem C1_transport_preconditions (st : CoreState) (msg : String)
    (ctx : Option (List Turn)) (mb : Option String) (f : String → String) :
    (st.isMember = false →
      aiChatRoute st (some msg) ctx mb (fun p => Except.ok (f p)) =
        (Except.error { message := "Chat room not found or access denied", status := 404 }, st)) ∧
    (st.isMember = true → st.allowAI = false →
      aiChatRoute st (some msg) ctx mb (fun p => Except.ok (f p)) =
        (Except.error { message := "AI is not enabled for this chat room", status := 403 }, st)) ∧
    (st.isMember = true → st.allowAI = true →
      (checkUsageQuota (Except.ok st.sub)).canUse = false →
      aiChatRoute st (some msg) ctx mb (fun p => Except.ok (f p)) =
        (Except.error { message := "AI usage quota exceeded. Please upgrade your subscription.",
                        status := 429 }, st)) ∧
    ((checkUsageQuota (Except.ok st.sub)).canUse = false →
      handleAIResponse st msg ctx (fun p => Except.ok (f p)) =
        ([SocketEvent.aiError "AI usage quota exceeded. Please upgrade your subscription."], st)) ∧
    ((checkUsageQuota (Except.ok st.sub)).canUse = true →
      (handleAIResponse st msg ctx (fun p => Except.ok (f p))).2.sub = st.sub.map incrementSub ∧
      (handleAIResponse st msg ctx (fun p => Except.ok (f p))).2.messages.length =
        st.messages.length + 1) := by
  refine ⟨?_, ?_, ?_, ?_, ?_⟩
  · intro h
    simp [aiChatRoute, h]
  · intro h1 h2
    simp [aiChatRoute, h1, h2]
  · intro h1 h2 h3
    exact aiChatRoute_quota_blocked st msg ctx mb _ h1 h2 h3
  · intro h
    simp [handleAIResponse, h]
  · intro h
    have hresp : ∃ resp, socketGenerate ctx msg (fun p => Except.ok (f p)) = Except.ok resp := by
      rcases ctx with _ | (_ | ⟨t, ts⟩) <;> exact ⟨_, rfl⟩
    obtain ⟨resp, hresp⟩ := hresp
    simp [handleAIResponse, h, hresp, applyAiSuccess]

/-- C1 witness: concrete instantiations of the amended theorem — a
member of an AI-enabled room with an exhausted quota receives the 429 on
the HTTP route, and a non-member caller with allowance remaining has the
socket handler consume quota anyway. -/
theorem C1_transport_preconditions_witness :
    aiChatRoute (mkQuotaState 5 5) (some "hello") none none (fun p => Except.ok p) =
      (Except.error { message := "AI usage quota exceeded. Please upgrade your subscription.",
                      status := 429 }, mkQuotaState 5 5) ∧
    (handleAIResponse c1State "hello" none (fun p => Except.ok p)).2.sub =
      c1State.sub.map incrementSub := by
  constructor
  · exact (C1_transport_preconditions (mkQuotaState 5 5) "hello" none none (fun p => p)).2.2.1
      rfl rfl (by decide)
  · exact ((C1_transport_preconditions c1State "hello" none none (fun p => p)).2.2.2.2
      (by decide)).1

/-- C2: two concurrent invocations by an identity whose allowance is
exactly one, interleaved so that both checkUsageQuota reads precede both
incrementUsage writes, yield two successes and a consumed count of two —
the check-then-increment across two round trips is not one atomic
operation, so K concurrent calls with allowance K-1 can all succeed,
contrary to the claim. -/
theorem C2_race_not_atomic :
    raceTwoInvocations { monthlyMessageLimit := 1, messagesUsed := 0 } =
      ((true, true), { monthlyMessageLimit := 1, messagesUsed := 2 }) := by
  decide

/-- C5: the rate-limiter key for an authenticated request is derived
from the network address plus a fixed auth suffix, never from the
authenticated identity, so two distinct authenticated identities behind
the same address share one window — contrary to the claim. -/
theorem C5_key_ignores_identity :
    keyGenerator (some "Bearer token-of-user-A") "203.0.113.7" =
      keyGenerator (some "Bearer token-of-user-B") "203.0.113.7" ∧
    keyGenerator (some "Bearer token-of-user-A") "203.0.113.7" = "rate_limit:203.0.113.7:auth" ∧
    keyGenerator none "203.0.113.7" = "rate_limit:203.0.113.7" := by
  exact ⟨rfl, by decide, by decide⟩

/-- C8 counterexample context: one prior assistant turn. -/
def c8Context : List Turn := [{ role := Role.assistant, content := "hello" }]

/-- C8 counterexample: with context supplied, the prompt the code builds
is not the ordered prior turns with the new user message appended
exactly once as the final turn — the new user message appears twice. -/
theorem C8_counterexample :
    chatPrompt (c8Context ++ [{ role := Role.user, content := "hi" }]) =
      "Assistant: hello\nUser: hi\nUser: hi" ∧
    specPromptWithContext c8Context "hi" = "Assistant: hello\nUser: hi" ∧
    chatPrompt (c8Context ++ [{ role := Role.user, content := "hi" }]) ≠
      specPromptWithContext c8Context "hi" := by
  refine ⟨by decide, by decide, by decide⟩

/-- C8 amended: prompt composition is deterministic (a pure function of
its inputs); with context the prompt is the ordered prior turns with the
new user message appended as the final turn, followed by one further
repetition of the new user message as an extra final User line; with no
context it is the fixed persona instruction prefixed to the user
message. -/
theorem C8_prompt_composition (ctx : List Turn) (msg : String) (model : String)
    (provider : String → Except Unit String) :
    chatPrompt (ctx ++ [{ role := Role.user, content := msg }]) =
      specPromptWithContext ctx msg ++ "\nUser: " ++ msg ∧
    fullPromptOf (some personaPrompt) msg = personaPrompt ++ "\n\nUser: " ++ msg ∧
    generateChatResponse (ctx ++ [{ role := Role.user, content := msg }]) model none provider =
      generateResponse (specPromptWithContext ctx msg ++ "\nUser: " ++ msg) model none provider := by
  have h1 : chatPrompt (ctx ++ [{ role := Role.user, content := msg }]) =
      specPromptWithContext ctx msg ++ "\nUser: " ++ msg := by
    unfold chatPrompt specPromptWithContext
    rw [lastUserMessage_append]
  refine ⟨h1, rfl, ?_⟩
  unfold generateChatResponse
  rw [h1]

/-- C3: starting a period with allowance A (limit A, nothing consumed),
N sequential invocations with N at most A all succeed, the k-th success
reporting the pre-increment snapshot A - k minus one; afterwards the
remaining allowance is max 0 (A - N); and when N = A (remaining zero)
the next invocation fails with the 429 quota error and leaves the state,
including the consumed count, unchanged. -/
theorem C3_quota_monotonicity (A N : Nat) (f : String → String) (hN : N ≤ A) :
    (runAiSeq (fun p => Except.ok (f p)) (mkQuotaState A 0) N).1 =
      (List.range N).map (fun k : Nat => Except.ok ((A : Int) - k - 1)) ∧
    (checkUsageQuota (Except.ok
        (runAiSeq (fun p => Except.ok (f p)) (mkQuotaState A 0) N).2.sub)).remaining =
      max 0 ((A : Int) - N) ∧
    (N = A →
      aiChatRoute (runAiSeq (fun p => Except.ok (f p)) (mkQuotaState A 0) N).2
          (some "hi") none none (fun p => Except.ok (f p)) =
        (Except.error { message := "AI usage quota exceeded. Please upgrade your subscription.",
                        status := 429 },
         (runAiSeq (fun p => Except.ok (f p)) (mkQuotaState A 0) N).2)) := by
  have h := runAiSeq_spec f A N (mkQuotaState A 0) 0 rfl rfl rfl (by omega)
  refine ⟨?_, ?_, ?_⟩
  · rw [h.1]
    apply List.map_congr_left
    intro k _
    norm_num
  · rw [h.2.2.2, checkUsageQuota_some]
    norm_num
  · intro hNA
    apply aiChatRoute_quota_blocked _ _ _ _ _ h.2.1 h.2.2.1
    rw [h.2.2.2, checkUsageQuota_some]
    simp only [decide_eq_false_iff_not, not_lt, hNA]
    omega

/-- C3 witness: the theorem at allowance 2 and two sequential calls. -/
theorem C3_quota_monotonicity_witness :
    (runAiSeq (fun p => Except.ok p) (mkQuotaState 2 0) 2).1 =
      (List.range 2).map (fun k : Nat => Except.ok ((2 : Int) - k - 1)) ∧
    (checkUsageQuota (Except.ok
        (runAiSeq (fun p => Except.ok p) (mkQuotaState 2 0) 2).2.sub)).remaining =
      max 0 ((2 : Int) - 2) ∧
    (2 = 2 →
      aiChatRoute (runAiSeq (fun p => Except.ok p) (mkQuotaState 2 0) 2).2
          (some "hi") none none (fun p => Except.ok p) =
        (Except.error { message := "AI usage quota exceeded. Please upgrade your subscription.",
                        status := 429 },
         (runAiSeq (fun p => Except.ok p) (mkQuotaState 2 0) 2).2)) :=
  C3_quota_monotonicity 2 2 (fun p => p) (by decide)

/-- C4: when the provider call fails, both the HTTP ai-chat route and
the socket handler report the generation failure (500 error, ai_error
event) and return the state untouched: no assistant message is
persisted and neither messagesUsed nor the lifetime messageCount
changes. -/
theorem C4_generation_failure (st : CoreState) (msg : String) (ctx : Option (List Turn))
    (mb : Option String)
    (hm : st.isMember = true) (ha : st.allowAI = true)
    (hq : (checkUsageQuota (Except.ok st.sub)).canUse = true) :
    aiChatRoute st (some msg) ctx mb (fun _ => Except.error ()) =
      (Except.error { message := "Failed to generate AI response", status := 500 }, st) ∧
    handleAIResponse st msg ctx (fun _ => Except.error ()) =
      ([SocketEvent.aiError "Failed to generate AI response"], st) := by
  constructor
  · have hgen : httpGenerate ctx msg (mb.getD defaultModel) (fun _ => Except.error ()) =
        Except.error () := by
      cases ctx <;> rfl
    simp [aiChatRoute, hm, ha, hq, hgen]
  · have hgen : socketGenerate ctx msg (fun _ => Except.error ()) = Except.error () := by
      rcases ctx with _ | (_ | ⟨t, ts⟩) <;> rfl
    simp [handleAIResponse, hq, hgen]

/-- C4 witness: the theorem at a member state with allowance left. -/
theorem C4_generation_failure_witness :
    aiChatRoute (mkQuotaState 5 0) (some "hello") none none (fun _ => Except.error ()) =
      (Except.error { message := "Failed to generate AI response", status := 500 },
       mkQuotaState 5 0) ∧
    handleAIResponse (mkQuotaState 5 0) "hello" none (fun _ => Except.error ()) =
      ([SocketEvent.aiError "Failed to generate AI response"], mkQuotaState 5 0) :=
  C4_generation_failure (mkQuotaState 5 0) "hello" none none rfl rfl (by decide)

/-- C6: for a key with no window, a first hit, then maxHits further hits
all inside the window, produce exactly maxHits allowed verdicts followed
by one rejection; the rejected hit is still counted and the expiry — set
windowSeconds from the first hit — is never extended; a hit at or after
the expiry is allowed and starts a fresh window. -/
theorem C6_fixed_window (maxHits t0 tlast t2 : Nat) (ts : List Nat)
    (h1 : 1 ≤ maxHits) (hlen : ts.length = maxHits - 1)
    (hts : ∀ t ∈ ts, t < t0 + windowSeconds * 1000)
    (hlast : tlast < t0 + windowSeconds * 1000)
    (h2 : t0 + windowSeconds * 1000 ≤ t2) :
    runHits maxHits none (t0 :: (ts ++ [tlast])) =
      (List.replicate maxHits true ++ [false],
       some { count := maxHits + 1, expiry := t0 + windowSeconds * 1000 }) ∧
    rlHit (some { count := maxHits + 1, expiry := t0 + windowSeconds * 1000 }) t2 maxHits =
      (true, { count := 1, expiry := t2 + windowSeconds * 1000 }) := by
  constructor
  · have hfirst : rlHit none t0 maxHits =
        (true, { count := 1, expiry := t0 + windowSeconds * 1000 }) := by
      simp [rlHit, storeHit, decide_eq_true h1]
    have hmid := runHits_allowed maxHits (t0 + windowSeconds * 1000) ts 1 hts
      (by omega)
    have hcnt : ¬ (1 + ts.length + 1 ≤ maxHits) := by omega
    have hlaststep : rlHit
        (some { count := 1 + ts.length, expiry := t0 + windowSeconds * 1000 })
        tlast maxHits =
        (false, { count := 1 + ts.length + 1, expiry := t0 + windowSeconds * 1000 }) := by
      rw [rlHit_inside maxHits (1 + ts.length) (t0 + windowSeconds * 1000) tlast hlast,
        decide_eq_false hcnt]
    simp only [runHits, hfirst, runHits_append, hmid, hlaststep]
    have hrep : true :: (List.replicate ts.length true ++ [false]) =
        List.replicate maxHits true ++ [false] := by
      rw [hlen]
      cases maxHits with
      | zero => exact absurd h1 (by omega)
      | succ k => simp [List.replicate_succ]
    have hc2 : 1 + ts.length + 1 = maxHits + 1 := by omega
    rw [hrep, hc2]
  · simp [rlHit, storeHit, h2, decide_eq_true h1]

/-- C6 witness: the theorem with maxHits 2, hits at 0, 5, 7 inside the
window and a hit at the expiry instant. -/
theorem C6_fixed_window_witness :
    runHits 2 none (0 :: ([5] ++ [7])) =
      (List.replicate 2 true ++ [false],
       some { count := 2 + 1, expiry := 0 + windowSeconds * 1000 }) ∧
    rlHit (some { count := 2 + 1, expiry := 0 + windowSeconds * 1000 }) 900000 2 =
      (true, { count := 1, expiry := 900000 + windowSeconds * 1000 }) :=
  C6_fixed_window 2 0 7 900000 [5] (by decide) (by decide) (by decide) (by decide) (by decide)

/-- C7: a leave by the owner of a room is rejected with the 400
ownership error and the membership table is unchanged; and no sequence
of leave operations, by any callers on any rooms, ever removes an owner
membership. -/
theorem C7_owner_never_removed (ms : Memberships) (u r : Nat) (ops : List (Nat × Nat))
    (h : ms (u, r) = some ChatRoomRole.OWNER) :
    leaveRoom ms u r =
      (Except.error { message := "Room owner cannot leave. Please transfer ownership first.",
                      status := 400 }, ms) ∧
    leaveSeq ms ops (u, r) = some ChatRoomRole.OWNER := by
  constructor
  · unfold leaveRoom
    rw [h]
    simp
  · exact leaveSeq_preserves_owner u r ops ms h

/-- C7 witness membership table: user 1 owns room 1, user 2 is a plain
member of room 1. -/
def msExample : Memberships := fun p =>
  if p = (1, 1) then some ChatRoomRole.OWNER
  else if p = (2, 1) then some ChatRoomRole.MEMBER
  else none

/-- C7 witness: the theorem at the concrete table, with user 2 leaving
and then user 1 (the owner) attempting to leave. -/
theorem C7_owner_never_removed_witness :
    leaveRoom msExample 1 1 =
      (Except.error { message := "Room owner cannot leave. Please transfer ownership first.",
                      status := 400 }, msExample) ∧
    leaveSeq msExample [(2, 1), (1, 1)] (1, 1) = some ChatRoomRole.OWNER :=
  C7_owner_never_removed msExample 1 1 [(2, 1), (1, 1)] (by decide)

lemma handleAIResponse_success_none (st : CoreState) (l u : Int) (msg : String)
    (f : String → String)
    (hs : st.sub = some { monthlyMessageLimit := l, messagesUsed := u })
    (hq : u < l) :
    handleAIResponse st msg none (fun p => Except.ok (f p)) =
      ([SocketEvent.newMessage (mkAiMessage (genOk msg defaultModel (some personaPrompt) f))],
       { st with
          messages := st.messages ++
            [mkAiMessage (genOk msg defaultModel (some personaPrompt) f)],
          sub := some { monthlyMessageLimit := l, messagesUsed := u + 1 },
          messageCount := st.messageCount + 1 }) := by
  have h0 : (0 : Int) < l - u := by omega
  simp only [handleAIResponse, hs, checkUsageQuota_some, decide_eq_true h0,
    Bool.true_eq_false, if_false, socketGenerate, generateResponse_ok, applyAiSuccess,
    Option.map_some', incrementSub]

/-- C9: a send_message event whose content contains the at-ai tag
case-insensitively, sent by a member into a room with the assistant
enabled, by a sender with allowance remaining and a responsive provider,
persists and broadcasts the user message and additionally an assistant
message, and consumes one unit of the quota of the sender. -/
theorem C9_send_message_ai_trigger (st : CoreState) (uid : Nat) (content : String)
    (l u : Int) (f : String → String)
    (hm : st.isMember = true) (ha : st.allowAI = true)
    (hai : containsAi content = true)
    (hs : st.sub = some { monthlyMessageLimit := l, messagesUsed := u })
    (hq : u < l) :
    (sendMessageSocket st uid content MessageType.TEXT (fun p => Except.ok (f p))).1 =
      [SocketEvent.newMessage (mkUserMessage content MessageType.TEXT uid),
       SocketEvent.newMessage (mkAiMessage (genOk content defaultModel (some personaPrompt) f))] ∧
    (sendMessageSocket st uid content MessageType.TEXT (fun p => Except.ok (f p))).2.messages =
      st.messages ++ [mkUserMessage content MessageType.TEXT uid,
                      mkAiMessage (genOk content defaultModel (some personaPrompt) f)] ∧
    (sendMessageSocket st uid content MessageType.TEXT (fun p => Except.ok (f p))).2.sub =
      some { monthlyMessageLimit := l, messagesUsed := u + 1 } ∧
    (sendMessageSocket st uid content MessageType.TEXT (fun p => Except.ok (f p))).2.messageCount =
      st.messageCount + 1 := by
  have hstep := handleAIResponse_success_none
    { isMember := true, allowAI := true, sub := st.sub, messageCount := st.messageCount,
      messages := st.messages ++ [mkUserMessage content MessageType.TEXT uid] }
    l u content f (by simpa using hs) hq
  simp only [sendMessageSocket, hm, ha, hai, Bool.true_eq_false, if_false, Bool.true_and,
    if_true, hstep]
  simp [List.append_assoc]

/-- C9 witness: the theorem at a member of an AI-enabled room with
allowance 3, sending a message that contains the tag in mixed case. -/
theorem C9_send_message_ai_trigger_witness :
    (sendMessageSocket (mkQuotaState 3 0) 7 "hey @AI what is up" MessageType.TEXT
        (fun p => Except.ok p)).1 =
      [SocketEvent.newMessage (mkUserMessage "hey @AI what is up" MessageType.TEXT 7),
       SocketEvent.newMessage (mkAiMessage (genOk "hey @AI what is up" defaultModel
         (some personaPrompt) (fun p => p)))] ∧
    (sendMessageSocket (mkQuotaState 3 0) 7 "hey @AI what is up" MessageType.TEXT
        (fun p => Except.ok p)).2.messages =
      (mkQuotaState 3 0).messages ++ [mkUserMessage "hey @AI what is up" MessageType.TEXT 7,
        mkAiMessage (genOk "hey @AI what is up" defaultModel (some personaPrompt) (fun p => p))] ∧
    (sendMessageSocket (mkQuotaState 3 0) 7 "hey @AI what is up" MessageType.TEXT
        (fun p => Except.ok p)).2.sub =
      some { monthlyMessageLimit := 3, messagesUsed := 0 + 1 } ∧
    (sendMessageSocket (mkQuotaState 3 0) 7 "hey @AI what is up" MessageType.TEXT
        (fun p => Except.ok p)).2.messageCount =
      (mkQuotaState 3 0).messageCount + 1 :=
  C9_send_message_ai_trigger (mkQuotaState 3 0) 7 "hey @AI what is up" 3 0 (fun p => p)
    rfl rfl (by decide) rfl (by decide)

/-- C10: checkUsageQuota fails closed — a failed ledger read and a
missing subscription both yield canUse false with remaining 0; the
reported remaining is never negative whatever the subscription row
holds; and a member of an AI-enabled room with no subscription row is
rejected by the ai-chat route with the 429 quota error, state
unchanged. -/
theorem C10_quota_fail_closed (st : CoreState) (s : Subscription) (msg : String)
    (ctx : Option (List Turn)) (mb : Option String)
    (provider : String → Except Unit String)
    (hm : st.isMember = true) (ha : st.allowAI = true) (hs : st.sub = none) :
    checkUsageQuota (Except.error ()) = { canUse := false, remaining := 0 } ∧
    checkUsageQuota (Except.ok none) = { canUse := false, remaining := 0 } ∧
    0 ≤ (checkUsageQuota (Except.ok (some s))).remaining ∧
    aiChatRoute st (some msg) ctx mb provider =
      (Except.error { message := "AI usage quota exceeded. Please upgrade your subscription.",
                      status := 429 }, st) := by
  refine ⟨rfl, rfl, ?_, ?_⟩
  · simp [checkUsageQuota]
  · exact aiChatRoute_quota_blocked st msg ctx mb provider hm ha (by rw [hs]; rfl)

/-- C10 witness: the theorem at a member state with no subscription row
and a subscription whose consumed count exceeds its allowance. -/
theorem C10_quota_fail_closed_witness :
    checkUsageQuota (Except.error ()) = { canUse := false, remaining := 0 } ∧
    checkUsageQuota (Except.ok none) = { canUse := false, remaining := 0 } ∧
    0 ≤ (checkUsageQuota (Except.ok (some { monthlyMessageLimit := 5, messagesUsed := 9 }))).remaining ∧
    aiChatRoute { isMember := true, allowAI := true, sub := none, messageCount := 0, messages := [] }
        (some "hello") none none (fun p => Except.ok p) =
      (Except.error { message := "AI usage quota exceeded. Please upgrade your subscription.",
                      status := 429 },
       { isMember := true, allowAI := true, sub := none, messageCount := 0, messages := [] }) :=
  C10_quota_fail_closed
    { isMember := true, allowAI := true, sub := none, messageCount := 0, messages := [] }
    { monthlyMessageLimit := 5, messagesUsed := 9 } "hello" none none (fun p => Except.ok p)
    rfl rfl rfl
